import Mathlib

/-!
Verification of the geo-spoofer-detector core against its specification.

The JavaScript source is shallowly embedded: JS numbers are modelled as `ℚ`
(scores as `ℤ`/`ℕ` where the code only ever adds or subtracts integers),
JS `null`/`undefined` as `Option`, and the one place where the code can
produce `NaN` (a 0/0 division in the VPN aggregator) is modelled as
`Option.none`.  External I/O (the provider HTTP calls, the current time,
the crypto random bytes) is passed in as explicit parameters.
-/

namespace GeoSpoofer

/-- JavaScript `String.prototype.startsWith`: `headMatch pre hay` is true when
`pre` is an initial run of `hay` (as character lists). -/
def headMatch : List Char → List Char → Bool
  | [], _ => true
  | _ :: _, [] => false
  | a :: as, b :: bs => a == b && headMatch as bs

/-- `subMatch needle hay` is true when `needle` occurs contiguously in `hay`. -/
def subMatch (needle : List Char) : List Char → Bool
  | [] => needle.isEmpty
  | c :: rest => headMatch needle (c :: rest) || subMatch needle rest

/-- JavaScript `hay.includes(needle)`. -/
def strIncludes (hay needle : String) : Bool :=
  subMatch needle.data hay.data

/-- JavaScript `hay.startsWith(pre)`. -/
def strStartsWith (hay pre : String) : Bool :=
  headMatch pre.data hay.data

/-- JavaScript `s.toLowerCase()` (ASCII; all needles in the source are ASCII). -/
def lowerStr (s : String) : String :=
  String.mk (s.data.map Char.toLower)

/-!  ## VPN/Proxy aggregator — src/routes/vpn-detection.js  -/

/-- One provider outcome, as consumed by the aggregation loop of `detectVPN`
(src/routes/vpn-detection.js lines 109-140) and by the Tor/fraud checks of
`verifyLocation` (src/unnamed/part_005 lines 1093-1102).  A result produced
by a
rejected promise carries `error := true`; `fraudScore` is `none` for the
providers that do not report one (JS `undefined`). -/
structure ProviderResult where
  error : Bool
  isVPN : Bool
  isTor : Bool := false
  fraudScore : Option ℚ := none
deriving DecidableEq

/-- Aggregate result of `detectVPN`.  `confidence := none` models the
JavaScript `NaN` produced by `Math.round((0/0) * 100)` when every provider
errored; `detailsError` models `details.error`. -/
structure VPNResult where
  ip : String
  isVPN : Bool
  confidence : Option ℕ
  detections : List ProviderResult
  totalChecks : ℕ
  vpnDetections : ℕ
  detailsError : Option String
deriving DecidableEq

/-- The 19 prefixes tested by `isPrivateIP`
(src/routes/vpn-detection.js lines 145-168). -/
def privatePrefixes : List String :=
  ["10.", "172.16.", "172.17.", "172.18.", "172.19.", "172.20.", "172.21.",
   "172.22.", "172.23.", "172.24.", "172.25.", "172.26.", "172.27.",
   "172.28.", "172.29.", "172.30.", "172.31.", "192.168.", "127."]

/-- src/routes/vpn-detection.js `isPrivateIP`: the disjunction of the 19
`ip.startsWith(...)` tests. -/
def isPrivateIP (ip : String) : Bool :=
  privatePrefixes.any (fun p => strStartsWith ip p)

/-- `totalChecks` of the aggregation loop: providers without an error marker. -/
def okCount (ps : List ProviderResult) : ℕ :=
  (ps.filter (fun r => !r.error)).length

/-- `vpnDetections` of the aggregation loop: error-free providers with
`isVPN` true. -/
def vpnCount (ps : List ProviderResult) : ℕ :=
  (ps.filter (fun r => !r.error && r.isVPN)).length

/-- `Math.round((d / k) * 100)` for `0 ≤ d ≤ k`, computed exactly:
`⌊100·d/k + 1/2⌋` as natural-number arithmetic.  (For the provider counts
reachable in the source, `k ≤ 5`, the double-precision computation agrees
with the exact one.) -/
def roundPct (d k : ℕ) : ℕ :=
  (200 * d + k) / (2 * k)

/-- src/routes/vpn-detection.js `detectVPN`, lines 58-140.  The network layer
is abstracted away: `ps` is the list of settled provider results (each
`checkX(ip).catch(...)` promise).  `threshold` is
`getThresholds().vpn.confidence.detected` (50 in thresholds.json and in the
built-in defaults). -/
def detectVPN (threshold : ℕ) (ip : String) (ps : List ProviderResult) : VPNResult :=
  if isPrivateIP ip then
    { ip := ip, isVPN := false, confidence := some 0, detections := [],
      totalChecks := 0, vpnDetections := 0,
      detailsError := some ("Private IP address") }
  else
    let k := okCount ps
    let d := vpnCount ps
    let conf : Option ℕ := if k == 0 then none else some (roundPct d k)
    let vpn : Bool :=
      match conf with
      | none => false          -- in JavaScript, NaN >= threshold is false
      | some c => decide (threshold ≤ c)
    { ip := ip, isVPN := vpn, confidence := conf,
      detections := ps.filter (fun r => !r.error && r.isVPN),
      totalChecks := k, vpnDetections := d, detailsError := none }

/-- The specification formula for the rounded percentage: `round(x)` as
`⌊x + 1/2⌋` on exact rationals. -/
def specRound (x : ℚ) : ℤ :=
  ⌊x + 1 / 2⌋

/-!  ## Location verifier — the registry-driven `verifyLocation`
(src/unnamed/part_005 lines 1041-1134), canonical per the rescoring-drift
note of the specification.  The api.js copy differs only in its low-accuracy
deduction (15 instead of 30), a source inconsistency the specification
resolves to 30.  -/

/-- Flag severities occurring in the source (the strings used in the `type`
field of flag objects). -/
inductive Severity where
  | info
  | warning
  | fail
  | critical
deriving DecidableEq

/-- A flag object `{type, message}` (the optional `explanation` field carries
no decision weight and is omitted). -/
structure Flag where
  type : Severity
  message : String
deriving DecidableEq

inductive LocationStatus where
  | authentic
  | suspicious
  | likelySpoofed
deriving DecidableEq

/-- The request-body fields destructured by `verifyLocation`.  `accuracy` is
`Option` because the body may omit it (JS `undefined`); `undefined > 1000`
is false in JavaScript, which the `none` branch mirrors. -/
structure LocationSignal where
  latitude : ℚ
  longitude : ℚ
  accuracy : Option ℚ
  timestamp : ℚ
deriving DecidableEq

structure LocationVerdict where
  status : LocationStatus
  score : ℤ
  flags : List Flag
deriving DecidableEq

/-- JavaScript `Number.isInteger` on an exact rational. -/
def qIsInt (q : ℚ) : Bool :=
  q.den == 1

/-- Null-island rule condition (part_005 line 1047). -/
def condNullIsland (sig : LocationSignal) : Bool :=
  sig.latitude == 0 && sig.longitude == 0

/-- Round-coordinates rule condition (part_005 line 1053). -/
def condRoundCoords (sig : LocationSignal) : Bool :=
  qIsInt sig.latitude && qIsInt sig.longitude

/-- Low-accuracy rule condition (part_005 line 1062):
`accuracy > thresholds.location.accuracy.low`, with 1000 in thresholds.json
and in the built-in defaults. -/
def condLowAccuracy (sig : LocationSignal) : Bool :=
  match sig.accuracy with
  | some a => decide (1000 < a)
  | none => false

/-- Stale-timestamp rule condition (part_005 lines 1072-1073):
`Date.now() - timestamp > 60000`. -/
def condStale (now : ℚ) (sig : LocationSignal) : Bool :=
  decide (60000 < now - sig.timestamp)

/-- The guard of the VPN block (part_005 line 1080):
`clientIp && clientIp !== 'unknown'`; the empty string is the only falsy
JavaScript string. -/
def condIpUsable (clientIp : String) : Bool :=
  clientIp != "" && clientIp != "unknown"

/-- VPN rule condition (part_005 lines 1080-1083). -/
def condVpn (clientIp : String) (ps : List ProviderResult) : Bool :=
  condIpUsable clientIp && (detectVPN 50 clientIp ps).isVPN

/-- Tor rule condition (part_005 line 1093), nested inside the VPN branch:
`vpnResults.detections.some(d => d.isTor)`. -/
def condTor (clientIp : String) (ps : List ProviderResult) : Bool :=
  condVpn clientIp ps && (detectVPN 50 clientIp ps).detections.any (fun d => d.isTor)

/-- High-fraud rule condition (part_005 line 1102), nested inside the VPN
branch:
`vpnResults.detections.some(d => d.fraudScore > 90)`; an absent `fraudScore`
compares false. -/
def condFraud (clientIp : String) (ps : List ProviderResult) : Bool :=
  condVpn clientIp ps &&
    (detectVPN 50 clientIp ps).detections.any (fun d =>
      match d.fraudScore with
      | some s => decide (90 < s)
      | none => false)

/-- The score accumulation of the registry-driven `verifyLocation`
(part_005 lines 1044-1109): start at 100, subtract each matched deduction in
source order; the low-accuracy deduction is 30 in this canonical copy. -/
def locScore (now : ℚ) (sig : LocationSignal) (clientIp : String)
    (ps : List ProviderResult) : ℤ :=
  100 - (if condNullIsland sig then 50 else 0)
      - (if condRoundCoords sig then 20 else 0)
      - (if condLowAccuracy sig then 30 else 0)
      - (if condStale now sig then 10 else 0)
      - (if condVpn clientIp ps then 30 else 0)
      - (if condTor clientIp ps then 20 else 0)
      - (if condFraud clientIp ps then 20 else 0)

/-- The flag list of `verifyLocation`, in the push order of the source. -/
def locFlags (now : ℚ) (sig : LocationSignal) (clientIp : String)
    (ps : List ProviderResult) : List Flag :=
  (if condNullIsland sig then
    [{ type := .critical, message := "Null Island coordinates detected" }] else [])
  ++ (if condRoundCoords sig then
    [{ type := .warning, message := "Suspiciously round coordinates" }] else [])
  ++ (if condLowAccuracy sig then
    [{ type := .warning, message := "Low location accuracy" }] else [])
  ++ (if condStale now sig then
    [{ type := .warning, message := "Stale location data" }] else [])
  ++ (if condVpn clientIp ps then
    [{ type := .warning, message := "VPN/Proxy detected" }] else [])
  ++ (if condTor clientIp ps then
    [{ type := .fail, message := "Tor network detected" }] else [])
  ++ (if condFraud clientIp ps then
    [{ type := .fail, message := "High-risk IP address" }] else [])

/-- The status mapping of `verifyLocation` (part_005 lines 1118-1120):
`thresholds.location.score.likelySpoofed` and `.suspicious`, 60 and 80 in
thresholds.json and in the built-in defaults. -/
def locStatus (now : ℚ) (sig : LocationSignal) (clientIp : String)
    (ps : List ProviderResult) : LocationStatus :=
  if locScore now sig clientIp ps < 60 then .likelySpoofed
  else if locScore now sig clientIp ps < 80 then .suspicious
  else .authentic

/-- The registry-driven `verifyLocation`, part_005 lines 1041-1134.  The VPN aggregator is
invoked on the client IP with the settled provider results `ps`; the
`try/catch` around it cannot fire in the source because `detectVPN` only
rejects if `Promise.all` does, and every provider promise carries its own
`.catch`. -/
def verifyLocation (now : ℚ) (sig : LocationSignal) (clientIp : String)
    (ps : List ProviderResult) : LocationVerdict :=
  { status := locStatus now sig clientIp ps
  , score := locScore now sig clientIp ps
  , flags := locFlags now sig clientIp ps }

/-!  ## Environment analyzer — src/routes/api.js lines 484-545  -/

inductive EnvKind where
  | localDesktop
  | possiblyRemote
  | remoteDesktop
  | virtualMachine
deriving DecidableEq

structure ScreenRes where
  width : ℚ
  height : ℚ
deriving DecidableEq

/-- The request-body fields destructured by the environment route and passed
to `analyzeEnvironment`; every field may be absent. -/
structure EnvironmentSignal where
  screenResolution : Option ScreenRes
  colorDepth : Option ℚ
  touchSupport : Option Bool
  webglRenderer : Option String
  platform : Option String
deriving DecidableEq

structure EnvVerdict where
  environmentType : EnvKind
  score : ℤ
  flags : List Flag
deriving DecidableEq

/-- The virtual-display check of `analyzeEnvironment` (api.js lines 510-512):
the lower-cased renderer contains one of the four virtual-adapter needles. -/
def vmRendererHit (r : String) : Bool :=
  let s := lowerStr r
  strIncludes s ("vmware") || strIncludes s ("virtualbox") ||
    strIncludes s ("microsoft basic") || strIncludes s ("llvmpipe")

/-- Aspect-ratio rule (api.js lines 490-500): the ratio is not within 0.01 of
a common ratio.  The double-precision literals `16/9` etc. are modelled by
the exact rationals; at the 0.01 slack the two computations agree on all
inputs the claims touch. -/
def condRatioOdd (sig : EnvironmentSignal) : Bool :=
  match sig.screenResolution with
  | some res =>
      let ratio := res.width / res.height
      !(([(16 : ℚ)/9, 16/10, 4/3, 21/9]).any (fun r => decide (|ratio - r| < 1/100)))
  | none => false

/-- Colour-depth rule (api.js line 503): `data.colorDepth < 24`; an absent
field compares false. -/
def condLowDepth (sig : EnvironmentSignal) : Bool :=
  match sig.colorDepth with
  | some c => decide (c < 24)
  | none => false

/-- WebGL-renderer rule (api.js lines 509-517): the renderer string is truthy
and matches the virtual-adapter set. -/
def condVmHit (sig : EnvironmentSignal) : Bool :=
  match sig.webglRenderer with
  | some r => r != "" && vmRendererHit r
  | none => false

/-- Touch-anomaly rule (api.js line 520):
`touchSupport === false && platform && platform.includes('Android')`. -/
def condTouchOdd (sig : EnvironmentSignal) : Bool :=
  sig.touchSupport == some false &&
    (match sig.platform with
     | some p => p != "" && strIncludes p ("Android")
     | none => false)

/-- src/routes/api.js `analyzeEnvironment`, lines 484-545.  Note the source
sets `environmentType = 'virtual_machine'` inside the WebGL branch and then
runs the score-based refinement unconditionally (lines 526-530), overwriting
that assignment whenever `score < 75`. -/
def analyzeEnvironment (sig : EnvironmentSignal) : EnvVerdict :=
  let score : ℤ :=
    100 - (if condRatioOdd sig then 20 else 0)
        - (if condLowDepth sig then 25 else 0)
        - (if condVmHit sig then 40 else 0)
        - (if condTouchOdd sig then 30 else 0)
  let kindAfterChecks : EnvKind :=
    if condVmHit sig then .virtualMachine else .localDesktop
  { environmentType :=
      if score < 50 then .remoteDesktop
      else if score < 75 then .possiblyRemote
      else kindAfterChecks
  , score := score
  , flags :=
      (if condRatioOdd sig then
        [{ type := .warning, message := "Unusual screen aspect ratio" }] else [])
      ++ (if condLowDepth sig then
        [{ type := .warning, message := "Low color depth (possible RDP)" }] else [])
      ++ (if condVmHit sig then
        [{ type := .critical, message := "Virtual display adapter detected" }] else [])
      ++ (if condTouchOdd sig then
        [{ type := .warning, message := "Android device without touch support" }] else []) }

/-!  ## Session fingerprint builder — session-fingerprint.js
(src/unnamed/part_004 lines 18-153)  -/

inductive RiskLevel where
  | low
  | medium
  | high
  | unknown
deriving DecidableEq

structure FPCoordinates where
  latitude : ℚ
  longitude : ℚ
deriving DecidableEq

/-- The `location.vpnDetection` sub-object read by the fingerprint builder. -/
structure VpnDetectionInput where
  isVPN : Bool
  confidence : ℚ
deriving DecidableEq

/-- The `location` member of the detection data fed to
`generateSessionFingerprint`. -/
structure LocationInput where
  coordinates : Option FPCoordinates
  accuracy : Option ℚ
  responseTime : Option ℚ
  flags : Option (List Flag)
  vpnDetection : Option VpnDetectionInput
deriving DecidableEq

/-- The `environment` member of the detection data. -/
structure EnvironmentInput where
  screenResolution : Option ScreenRes
  colorDepth : Option ℚ
  webglRenderer : Option String
  touchSupport : Option Bool
  platform : Option String
  timezone : Option String
  language : Option String
  flags : Option (List Flag)
deriving DecidableEq

/-- The `network` member of the detection data. -/
structure NetworkInput where
  webrtcIps : Option (List String)
  dnsTime : Option ℚ
  navigatorProperties : Option (List String)
deriving DecidableEq

/-- The `detectionResults` member of the detection data. -/
structure DetectionResults where
  locationScore : Option ℚ
  environmentScore : Option ℚ
  locationFlags : Option (List Flag)
  environmentFlags : Option (List Flag)
deriving DecidableEq

/-- The full argument of `generateSessionFingerprint`; every member of the
object may be absent. -/
structure DetectionData where
  location : Option LocationInput
  environment : Option EnvironmentInput
  network : Option NetworkInput
  timestamp : Option String
  userAgent : Option String
  clientIp : Option String
  detectionResults : Option DetectionResults
deriving DecidableEq

structure FPLocation where
  coordinates : Option FPCoordinates
  accuracy : Option ℚ
  responseTime : Option ℚ
  flags : List Flag
  vpnDetected : Bool
  vpnConfidence : ℚ
deriving DecidableEq

structure FPEnvironment where
  screenResolution : Option ScreenRes
  colorDepth : Option ℚ
  gpu : Option String
  touchSupport : Option Bool
  platform : Option String
  timezone : Option String
  language : Option String
  flags : List Flag
deriving DecidableEq

structure FPNetwork where
  clientIp : Option String
  userAgent : Option String
  webrtcIps : List String
  dnsTime : Option ℚ
  navigatorProperties : List String
deriving DecidableEq

structure FPSummary where
  locationScore : ℚ
  environmentScore : ℚ
  overallRisk : RiskLevel
  spoofingIndicators : List String
deriving DecidableEq

structure SessionFingerprint where
  sessionId : String
  timestamp : String
  location : FPLocation
  environment : FPEnvironment
  network : FPNetwork
  summary : FPSummary
deriving DecidableEq

/-- JavaScript `v || null` for a numeric field: `0` (the only falsy finite
number) collapses to null. -/
def jsNumOrNull (v : Option ℚ) : Option ℚ :=
  match v with
  | some q => if q == 0 then none else some q
  | none => none

/-- JavaScript `v || null` for a string field: the empty string collapses to
null. -/
def jsStrOrNull (v : Option String) : Option String :=
  match v with
  | some s => if s == "" then none else some s
  | none => none

/-- JavaScript `v || null` for a boolean field: `false` collapses to null. -/
def jsBoolOrNull (v : Option Bool) : Option Bool :=
  match v with
  | some true => some true
  | _ => none

/-- part_004 lines 80-90, `calculateOverallRisk`.  The `|| 100` fallbacks
replace an absent score and a score of exactly 0 (JavaScript falsy) by 100
before averaging. -/
def calculateOverallRisk (dr : Option DetectionResults) : RiskLevel :=
  match dr with
  | none => .unknown
  | some r =>
      let ls : ℚ :=
        match r.locationScore with
        | some v => if v == 0 then 100 else v
        | none => 100
      let es : ℚ :=
        match r.environmentScore with
        | some v => if v == 0 then 100 else v
        | none => 100
      let avgScore := (ls + es) / 2
      if avgScore < 40 then .high
      else if avgScore < 70 then .medium
      else .low

/-- The effective score the code averages: the spec-side description of the
`|| 100` fallback, used to state what `calculateOverallRisk` computes. -/
def effScore (s : Option ℚ) : ℚ :=
  match s with
  | some v => if v == 0 then 100 else v
  | none => 100

/-- part_004 lines 95-115, `extractSpoofingIndicators`: the messages of the
location then environment flags whose type is `fail` or `warning`. -/
def extractSpoofingIndicators (dr : Option DetectionResults) : List String :=
  let pick (fs : Option (List Flag)) : List String :=
    match fs with
    | some l => (l.filter (fun f => f.type == .fail || f.type == .warning)).map
        (fun f => f.message)
    | none => []
  match dr with
  | some r => pick r.locationFlags ++ pick r.environmentFlags
  | none => []

/-- part_004 lines 18-75, `generateSessionFingerprint`.  The call to
`crypto.randomBytes(16).toString('hex')` is modelled by the explicit `rand`
argument and `new Date().toISOString()` by `now`; everything else is a pure
function of the input. -/
def generateSessionFingerprint (rand : String) (now : String)
    (x : DetectionData) : SessionFingerprint :=
  { sessionId := rand
  , timestamp :=
      match x.timestamp with
      | some t => if t == "" then now else t
      | none => now
  , location :=
      { coordinates :=
          match x.location with
          | some l => l.coordinates
          | none => none
      , accuracy := jsNumOrNull (match x.location with
          | some l => l.accuracy
          | none => none)
      , responseTime := jsNumOrNull (match x.location with
          | some l => l.responseTime
          | none => none)
      , flags :=
          match x.location with
          | some l => (match l.flags with | some fs => fs | none => [])
          | none => []
      , vpnDetected :=
          match x.location with
          | some l => (match l.vpnDetection with | some v => v.isVPN | none => false)
          | none => false
      , vpnConfidence :=
          match x.location with
          | some l => (match l.vpnDetection with | some v => v.confidence | none => 0)
          | none => 0 }
  , environment :=
      { screenResolution :=
          match x.environment with
          | some e => e.screenResolution
          | none => none
      , colorDepth := jsNumOrNull (match x.environment with
          | some e => e.colorDepth
          | none => none)
      , gpu := jsStrOrNull (match x.environment with
          | some e => e.webglRenderer
          | none => none)
      , touchSupport := jsBoolOrNull (match x.environment with
          | some e => e.touchSupport
          | none => none)
      , platform := jsStrOrNull (match x.environment with
          | some e => e.platform
          | none => none)
      , timezone := jsStrOrNull (match x.environment with
          | some e => e.timezone
          | none => none)
      , language := jsStrOrNull (match x.environment with
          | some e => e.language
          | none => none)
      , flags :=
          match x.environment with
          | some e => (match e.flags with | some fs => fs | none => [])
          | none => [] }
  , network :=
      { clientIp := jsStrOrNull x.clientIp
      , userAgent := jsStrOrNull x.userAgent
      , webrtcIps :=
          match x.network with
          | some n => (match n.webrtcIps with | some l => l | none => [])
          | none => []
      , dnsTime := jsNumOrNull (match x.network with
          | some n => n.dnsTime
          | none => none)
      , navigatorProperties :=
          match x.network with
          | some n => (match n.navigatorProperties with | some l => l | none => [])
          | none => [] }
  , summary :=
      { locationScore :=
          match x.detectionResults with
          | some r => (match r.locationScore with | some v => v | none => 0)
          | none => 0
      , environmentScore :=
          match x.detectionResults with
          | some r => (match r.environmentScore with | some v => v | none => 0)
          | none => 0
      , overallRisk := calculateOverallRisk x.detectionResults
      , spoofingIndicators := extractSpoofingIndicators x.detectionResults } }

/-- Rendering of a risk level inside the text projection. -/
def riskName : RiskLevel → String
  | .low => "low"
  | .medium => "medium"
  | .high => "high"
  | .unknown => "unknown"

/-- JavaScript template interpolation of a nullable string: `null` renders as
the four characters null. -/
def showOptStr : Option String → String
  | some s => s
  | none => "null"

/-- Interpolation of a nullable number.  JavaScript number formatting is
modelled by the canonical rational rendering; the claims proved about the
projection concern only determinism, which is unaffected by the rendering
choice. -/
def showOptQ : Option ℚ → String
  | some q => toString q
  | none => "null"

/-- part_004 lines 120-154, `fingerprintToText`: the line-oriented projection
fed to the embedding model.  It reads only the location, environment,
network and summary components, never `sessionId` or `timestamp`. -/
def fingerprintToText (fp : SessionFingerprint) : String :=
  let locParts : List String :=
    match fp.location.coordinates with
    | some c =>
        [("Location: " ++ toString c.latitude ++ ", " ++ toString c.longitude),
         ("Accuracy: " ++ showOptQ fp.location.accuracy ++ "m")]
    | none => []
  let vpnParts : List String :=
    if fp.location.vpnDetected then
      [("VPN detected with " ++ toString fp.location.vpnConfidence ++ "% confidence")]
    else []
  let envParts : List String :=
    [("Platform: " ++ showOptStr fp.environment.platform),
     ("Screen: " ++ (match fp.environment.screenResolution with
        | some r => toString r.width ++ "x" ++ toString r.height
        | none => "undefinedxundefined")),
     ("GPU: " ++ showOptStr fp.environment.gpu)]
  let netParts : List String :=
    [("User Agent: " ++ showOptStr fp.network.userAgent)]
    ++ (if fp.network.webrtcIps.length > 0 then
      [("WebRTC IPs: " ++ String.intercalate (", ") fp.network.webrtcIps)] else [])
  let sumParts : List String :=
    [("Risk Level: " ++ riskName fp.summary.overallRisk),
     ("Location Score: " ++ toString fp.summary.locationScore),
     ("Environment Score: " ++ toString fp.summary.environmentScore)]
  let indParts : List String :=
    if fp.summary.spoofingIndicators.length > 0 then
      [("Spoofing Indicators: " ++ String.intercalate ("; ") fp.summary.spoofingIndicators)]
    else []
  String.intercalate ("\n")
    (locParts ++ vpnParts ++ envParts ++ netParts ++ sumParts ++ indParts)

/-!  ## Lite risk evaluator — session-fingerprint.js `evaluateLite`
(src/unnamed/part_004 lines 612-729)  -/

inductive RiskTier where
  | LOW
  | MEDIUM
  | HIGH
  | UNKNOWN
deriving DecidableEq

/-- One nearest-neighbour hit as consumed by `evaluateLite`: the similarity
`score` and `payload?.summary?.overallRisk` (absent when the payload lacks a
summary). -/
structure SimilarSession where
  score : ℚ
  overallRisk : Option RiskLevel
deriving DecidableEq

/-- The fields of the lite evaluation object relevant to the claims (the
free-text members produced by the generative model carry no decision
weight). -/
structure LiteEvaluation where
  riskAssessment : RiskTier
  riskScore : ℕ
  confidence : ℕ
  riskFactors : List String
  patterns : List String
deriving DecidableEq

/-- Lite signal: `fingerprint.location.vpnDetected` (part_004 line 620). -/
def sigVPN (fp : SessionFingerprint) : Bool :=
  fp.location.vpnDetected

/-- Lite signal: `fingerprint.location.accuracy > 1000` (part_004 line 626);
a null accuracy compares false. -/
def sigLowAccuracy (fp : SessionFingerprint) : Bool :=
  match fp.location.accuracy with
  | some a => decide (1000 < a)
  | none => false

/-- Lite signal (part_004 line 631):
`responseTime && responseTime < 10` — a response time of exactly 0 is falsy
and does not trigger the bonus. -/
def sigFastResponse (fp : SessionFingerprint) : Bool :=
  match fp.location.responseTime with
  | some r => r != 0 && decide (r < 10)
  | none => false

/-- Lite signal (part_004 lines 638-639): the lower-cased GPU string (empty
when null) contains a virtual-machine needle.  Note `llvmpipe` is absent
from this set, unlike the environment analyzer. -/
def sigVMGpu (fp : SessionFingerprint) : Bool :=
  let g := lowerStr (match fp.environment.gpu with
    | some s => s
    | none => "")
  strIncludes g ("vmware") || strIncludes g ("virtualbox") ||
    strIncludes g ("microsoft basic")

/-- Lite signal: `fingerprint.environment.colorDepth < 24`
(part_004 line 645).  The builder stores `null` (not undefined) for an
absent or zero colour depth, and JavaScript coerces `null < 24` to
`0 < 24`, which is true — so a null colour depth does trigger the bonus. -/
def sigLowColorDepth (fp : SessionFingerprint) : Bool :=
  match fp.environment.colorDepth with
  | some c => decide (c < 24)
  | none => true

/-- Count of neighbours whose payload summary marks them high risk
(part_004 lines 654-656). -/
def highRiskSimilar (ss : List SimilarSession) : ℕ :=
  (ss.filter (fun s => s.overallRisk == some .high)).length

/-- Lite signal (part_004 lines 653-660): the neighbour list is non-empty
and `highRiskSimilar > similarSessions.length / 2` (JS float division). -/
def sigHighRiskNeighbors (ss : List SimilarSession) : Bool :=
  !ss.isEmpty && decide ((highRiskSimilar ss : ℚ) > (ss.length : ℚ) / 2)

/-- The neighbour-similarity side condition (part_004 line 666):
average similarity above 0.9, only reachable with a non-empty list. -/
def sigVeryHighSimilarity (ss : List SimilarSession) : Bool :=
  !ss.isEmpty &&
    decide ((ss.map (fun s => s.score)).sum / (ss.length : ℚ) > 9 / 10)

/-- The `riskScore` tally of `evaluateLite`, in source order. -/
def liteRiskScore (fp : SessionFingerprint) (ss : List SimilarSession) : ℕ :=
  (if sigVPN fp then 30 else 0)
  + (if sigLowAccuracy fp then 15 else 0)
  + (if sigFastResponse fp then 20 else 0)
  + (if sigVMGpu fp then 25 else 0)
  + (if sigLowColorDepth fp then 15 else 0)
  + (if sigHighRiskNeighbors ss then 20 else 0)

/-- The `riskFactors` list of `evaluateLite`, in push order.  The
high-risk-neighbour branch adds to the score but pushes no risk factor. -/
def liteRiskFactors (fp : SessionFingerprint) : List String :=
  (if sigVPN fp then ["VPN/Proxy detected"] else [])
  ++ (if sigLowAccuracy fp then ["Low GPS accuracy"] else [])
  ++ (if sigFastResponse fp then ["Suspiciously fast location response"] else [])
  ++ (if sigVMGpu fp then ["Virtual machine detected"] else [])
  ++ (if sigLowColorDepth fp then ["Low color depth (possible RDP)"] else [])

/-- The `patterns` list of `evaluateLite`, in push order. -/
def litePatterns (fp : SessionFingerprint) (ss : List SimilarSession) : List String :=
  (if sigVPN fp then ["Network anonymization tool usage"] else [])
  ++ (if sigFastResponse fp then ["Possible browser extension spoofing"] else [])
  ++ (if sigVMGpu fp then ["Virtualized environment"] else [])
  ++ (if sigLowColorDepth fp then ["Remote desktop connection"] else [])
  ++ (if sigHighRiskNeighbors ss then ["Pattern matches known spoofing attempts"] else [])
  ++ (if sigVeryHighSimilarity ss then ["Very high similarity to previous sessions"] else [])

/-- The tier assignment of `evaluateLite` (part_004 lines 673-675). -/
def liteTier (riskScore : ℕ) : RiskTier :=
  if 60 ≤ riskScore then .HIGH
  else if 30 ≤ riskScore then .MEDIUM
  else .LOW

/-- part_004 lines 612-729, `evaluateLite`, restricted to its deterministic
decision content.  The generative one-liner only fills the free-text
`explanation` and is caught on failure; the outer `try/catch` (tier UNKNOWN)
cannot fire on well-formed inputs, which this embedding assumes. -/
def evaluateLite (fp : SessionFingerprint) (ss : List SimilarSession) : LiteEvaluation :=
  { riskAssessment := liteTier (liteRiskScore fp ss)
  , riskScore := liteRiskScore fp ss
  , confidence := min 90 (50 + (liteRiskFactors fp).length * 10)
  , riskFactors := liteRiskFactors fp
  , patterns := litePatterns fp ss }

/-!  ## The public /location/verify route — src/routes/api.js lines 26-74  -/

/-- The JavaScript value of a request-body coordinate field: absent,
explicit null, or a number. -/
inductive JSVal where
  | null
  | undef
  | num (q : ℚ)
deriving DecidableEq

/-- JavaScript truthiness of such a value: null, undefined and 0 are falsy. -/
def jsFalsy : JSVal → Bool
  | .null => true
  | .undef => true
  | .num q => q == 0

/-- Numeric payload of a coordinate; the default branch is unreachable in
`locationVerifyRoute` because non-numbers are filtered out before use. -/
def jsNumOf : JSVal → ℚ
  | .num q => q
  | _ => 0

/-- The three ways the handler can respond. -/
inductive VerifyResponse where
  | unableToVerify
  | badRequest (error : String)
  | ok (verdict : LocationVerdict)
deriving DecidableEq

/-- src/routes/api.js lines 26-74, the `POST /location/verify` handler:
first the `latitude === null || longitude === null` check (HTTP 200 with an
`unable_to_verify` body), then the truthiness check `!latitude || !longitude`
(HTTP 400), and only then the call to `verifyLocation`. -/
def locationVerifyRoute (now : ℚ) (lat lon : JSVal) (accuracy : Option ℚ)
    (timestamp : ℚ) (clientIp : String) (ps : List ProviderResult) : VerifyResponse :=
  if lat == .null || lon == .null then
    .unableToVerify
  else if jsFalsy lat || jsFalsy lon then
    .badRequest ("Missing required location data")
  else
    .ok (verifyLocation now
      { latitude := jsNumOf lat, longitude := jsNumOf lon,
        accuracy := accuracy, timestamp := timestamp } clientIp ps)

/-!  ## Concrete inputs used by the counterexamples and witnesses  -/

/-- A run in which the single always-dispatched fallback provider rejected:
every settled result carries the error marker. -/
def psAllError : List ProviderResult :=
  [{ error := true, isVPN := false }]

/-- A run with one successful VPN-positive provider and one errored one. -/
def psMixed : List ProviderResult :=
  [{ error := false, isVPN := true }, { error := true, isVPN := false }]

/-- A successful provider result flagging VPN, Tor and a fraud score of 95. -/
def psVpnTorFraud : List ProviderResult :=
  [{ error := false, isVPN := true, isTor := true, fraudScore := some 95 }]

/-- Null-island location with every location deduction triggerable. -/
def sigSpoof : LocationSignal :=
  { latitude := 0, longitude := 0, accuracy := some 2000, timestamp := 0 }

/-- Plain null-island location. -/
def sigNull : LocationSignal :=
  { latitude := 0, longitude := 0, accuracy := none, timestamp := 0 }

/-- A VMware renderer with every other environment field unremarkable
(common resolution, colour depth 24, touch present, non-Android platform). -/
def envVMware : EnvironmentSignal :=
  { screenResolution := some { width := 1920, height := 1080 }
  , colorDepth := some 24
  , touchSupport := some true
  , webglRenderer := some ("VMware SVGA 3D")
  , platform := some ("Win32") }

/-- Detection data with every member absent. -/
def xEmpty : DetectionData :=
  { location := none, environment := none, network := none, timestamp := none,
    userAgent := none, clientIp := none, detectionResults := none }

/-- Detection results whose two scores are both exactly 0. -/
def drZero : DetectionResults :=
  { locationScore := some 0, environmentScore := some 0,
    locationFlags := none, environmentFlags := none }

/-- A fingerprint that triggers none of the lite risk signals.  The
components are, in order: no coordinates, accuracy, response time, flags, no
VPN, zero confidence; an empty environment; an empty network; a zeroed
summary. -/
def fpBase : SessionFingerprint :=
  { sessionId := "s", timestamp := "t"
  , location := ⟨none, none, none, [], false, 0⟩
  , environment := ⟨none, none, none, none, none, none, none, []⟩
  , network := ⟨none, none, [], none, []⟩
  , summary := ⟨0, 0, .unknown, []⟩ }

/-- `fpBase` with the VPN signal additionally triggered. -/
def fpVpn : SessionFingerprint :=
  { fpBase with location := { fpBase.location with vpnDetected := true } }

/-!  ## Theorems  -/

/-- The natural-number aggregation `(200·d + k) / (2·k)` computes exactly the
specification formula `⌊100·d/k + 1/2⌋` whenever at least one provider
succeeded. -/
theorem roundPct_spec (d k : ℕ) (hk : k ≠ 0) :
    (roundPct d k : ℤ) = specRound (100 * (d : ℚ) / (k : ℚ)) := by
  have hkQ : ((k : ℚ)) ≠ 0 := Nat.cast_ne_zero.mpr hk
  have h1 : 100 * (d : ℚ) / (k : ℚ) + 1 / 2
      = ((200 * d + k : ℕ) : ℚ) / ((2 * k : ℕ) : ℚ) := by
    push_cast
    field_simp
    ring
  have h0 : (0 : ℚ) ≤ ((200 * d + k : ℕ) : ℚ) / ((2 * k : ℕ) : ℚ) := by positivity
  unfold specRound roundPct
  rw [h1, ← Int.natCast_floor_eq_floor h0, Nat.floor_div_eq_div]

/-- C1 (amended): on a non-private IP, when at least one provider succeeded
the aggregate confidence is `round(100·d/k)` (d = VPN-positive successes,
k = successes) and the verdict is VPN exactly when that confidence reaches
the threshold; when every provider errored the verdict is not-VPN but the
confidence is the JavaScript NaN (modelled `none`), not 0 as the claim
states. -/
theorem detectVPN_confidence_formula (thr : ℕ) (ip : String)
    (ps : List ProviderResult) (hpriv : isPrivateIP ip = false) :
    (okCount ps ≠ 0 →
      ∃ c : ℕ, (detectVPN thr ip ps).confidence = some c ∧
        (c : ℤ) = specRound (100 * (vpnCount ps : ℚ) / (okCount ps : ℚ)) ∧
        ((detectVPN thr ip ps).isVPN = true ↔ thr ≤ c))
    ∧ (okCount ps = 0 →
      (detectVPN thr ip ps).isVPN = false ∧ (detectVPN thr ip ps).confidence = none) := by
  constructor
  · intro hk
    refine ⟨roundPct (vpnCount ps) (okCount ps), ?_, roundPct_spec _ _ hk, ?_⟩
    · simp [detectVPN, hpriv, hk]
    · simp [detectVPN, hpriv, hk]
  · intro hk
    constructor
    · simp [detectVPN, hpriv, hk]
    · simp [detectVPN, hpriv, hk]

/-- C1 witness: one successful VPN-positive provider next to one errored
provider gives confidence 100 and a VPN verdict at threshold 50. -/
theorem detectVPN_confidence_formula_witness :
    isPrivateIP ("8.8.8.8") = false ∧
    ((okCount psMixed ≠ 0 →
      ∃ c : ℕ, (detectVPN 50 ("8.8.8.8") psMixed).confidence = some c ∧
        (c : ℤ) = specRound (100 * (vpnCount psMixed : ℚ) / (okCount psMixed : ℚ)) ∧
        ((detectVPN 50 ("8.8.8.8") psMixed).isVPN = true ↔ 50 ≤ c))
    ∧ (okCount psMixed = 0 →
      (detectVPN 50 ("8.8.8.8") psMixed).isVPN = false ∧
      (detectVPN 50 ("8.8.8.8") psMixed).confidence = none)) :=
  ⟨by decide, detectVPN_confidence_formula 50 ("8.8.8.8") psMixed (by decide)⟩

/-- C1 counterexample: with every provider errored (here the single fallback
provider rejected), the source computes `Math.round((0/0)*100)`, i.e. NaN —
the confidence is not 0. -/
theorem detectVPN_all_error_confidence_nan :
    (detectVPN 50 ("8.8.8.8") psAllError).confidence = none ∧
    decide ((detectVPN 50 ("8.8.8.8") psAllError).confidence = some 0) = false ∧
    (detectVPN 50 ("8.8.8.8") psAllError).isVPN = false := by
  decide

/-- C6: for a private-range IP the aggregator returns isVPN false,
confidence 0 and the Private IP diagnostic, and the result does not depend
on any provider outcome (no provider is contacted); the diagnostic message
contains the text Private IP. -/
theorem detectVPN_private_short_circuit (thr : ℕ) (ip : String)
    (ps qs : List ProviderResult) (h : isPrivateIP ip = true) :
    detectVPN thr ip ps =
      { ip := ip, isVPN := false, confidence := some 0, detections := [],
        totalChecks := 0, vpnDetections := 0,
        detailsError := some ("Private IP address") } ∧
    detectVPN thr ip ps = detectVPN thr ip qs ∧
    strIncludes ("Private IP address") ("Private IP") = true := by
  refine ⟨?_, ?_, by decide⟩
  · unfold detectVPN
    rw [if_pos h]
  · unfold detectVPN
    rw [if_pos h, if_pos h]

/-- C6 witness: the address 192.168.1.5 short-circuits. -/
theorem detectVPN_private_short_circuit_witness :
    isPrivateIP ("192.168.1.5") = true ∧
    (detectVPN 50 ("192.168.1.5") psVpnTorFraud =
      { ip := "192.168.1.5", isVPN := false, confidence := some 0, detections := [],
        totalChecks := 0, vpnDetections := 0,
        detailsError := some ("Private IP address") } ∧
    detectVPN 50 ("192.168.1.5") psVpnTorFraud = detectVPN 50 ("192.168.1.5") psMixed ∧
    strIncludes ("Private IP address") ("Private IP") = true) :=
  ⟨by decide, detectVPN_private_short_circuit 50 ("192.168.1.5") psVpnTorFraud psMixed (by decide)⟩

/-- C2 (amended): the location score starts at 100 and only loses points, so
it never exceeds 100; the deductions total at most 180, so it never drops
below −80 — but it is not clamped to [0, 100]. -/
theorem verifyLocation_score_bounds (now : ℚ) (sig : LocationSignal)
    (clientIp : String) (ps : List ProviderResult) :
    (verifyLocation now sig clientIp ps).score ≤ 100 ∧
    -80 ≤ (verifyLocation now sig clientIp ps).score := by
  show locScore now sig clientIp ps ≤ 100 ∧ -80 ≤ locScore now sig clientIp ps
  unfold locScore
  split_ifs <;> omega

/-- C2 counterexample: a stale null-island reading with 2000 m accuracy over
a VPN/Tor/high-fraud IP scores 100−50−20−30−10−30−20−20 = −80, outside
[0, 100]. -/
theorem verifyLocation_score_negative_example :
    (verifyLocation 70000 sigSpoof ("203.0.113.7") psVpnTorFraud).score = -80 ∧
    decide (0 ≤ (verifyLocation 70000 sigSpoof ("203.0.113.7") psVpnTorFraud).score) = false := by
  have h1 : condNullIsland sigSpoof = true := by decide
  have h2 : condRoundCoords sigSpoof = true := by decide
  have h3 : condLowAccuracy sigSpoof = true := by decide
  have h4 : condStale 70000 sigSpoof = true := by
    simp only [condStale, sigSpoof, decide_eq_true_eq]
    norm_num
  have h5 : condVpn ("203.0.113.7") psVpnTorFraud = true := by decide
  have h6 : condTor ("203.0.113.7") psVpnTorFraud = true := by decide
  have h7 : condFraud ("203.0.113.7") psVpnTorFraud = true := by decide
  have hs : (verifyLocation 70000 sigSpoof ("203.0.113.7") psVpnTorFraud).score = -80 := by
    show locScore 70000 sigSpoof ("203.0.113.7") psVpnTorFraud = -80
    unfold locScore
    rw [h1, h2, h3, h4, h5, h6, h7]
    norm_num
  refine ⟨hs, ?_⟩
  rw [hs]
  decide

/-- C5: for any null-island signal the verifier reports likely_spoofed and
pushes a critical flag whose message mentions Null Island. -/
theorem verifyLocation_null_island (now : ℚ) (sig : LocationSignal)
    (clientIp : String) (ps : List ProviderResult)
    (hlat : sig.latitude = 0) (hlon : sig.longitude = 0) :
    (verifyLocation now sig clientIp ps).status = .likelySpoofed ∧
    ∃ f ∈ (verifyLocation now sig clientIp ps).flags,
      f.type = .critical ∧ strIncludes f.message ("Null Island") = true := by
  have hni : condNullIsland sig = true := by
    unfold condNullIsland
    rw [hlat, hlon]
    decide
  have hrc : condRoundCoords sig = true := by
    unfold condRoundCoords
    rw [hlat, hlon]
    decide
  have hscore : locScore now sig clientIp ps < 60 := by
    unfold locScore
    rw [hni, hrc]
    simp only [eq_self_iff_true, if_true]
    split_ifs <;> omega
  constructor
  · show locStatus now sig clientIp ps = .likelySpoofed
    unfold locStatus
    rw [if_pos hscore]
  · refine ⟨{ type := .critical, message := "Null Island coordinates detected" },
      ?_, rfl, by decide⟩
    show _ ∈ locFlags now sig clientIp ps
    unfold locFlags
    rw [hni]
    simp

/-- C5 witness: the plain null-island signal at time 0 with no usable client
IP. -/
theorem verifyLocation_null_island_witness :
    sigNull.latitude = 0 ∧ sigNull.longitude = 0 ∧
    ((verifyLocation 0 sigNull ("") []).status = .likelySpoofed ∧
     ∃ f ∈ (verifyLocation 0 sigNull ("") []).flags,
       f.type = .critical ∧ strIncludes f.message ("Null Island") = true) :=
  ⟨rfl, rfl, verifyLocation_null_island 0 sigNull ("") [] rfl rfl⟩

/-- C10: a request whose latitude or longitude is the number 0 passes the
strict null check but fails the truthiness check, so the handler answers
HTTP 400 Missing required location data and `verifyLocation` is never
reached (the response carries no verdict). -/
theorem locationVerifyRoute_zero_rejected (now : ℚ) (la lo : ℚ)
    (accuracy : Option ℚ) (timestamp : ℚ) (clientIp : String)
    (ps : List ProviderResult) (h : la = 0 ∨ lo = 0) :
    locationVerifyRoute now (.num la) (.num lo) accuracy timestamp clientIp ps
      = .badRequest ("Missing required location data") := by
  rcases h with h | h <;> subst h <;>
    simp [locationVerifyRoute, jsFalsy]

/-- C10 witness: the Null-Island request (latitude 0, longitude 0) is
answered with the 400 error. -/
theorem locationVerifyRoute_zero_rejected_witness :
    locationVerifyRoute 0 (.num 0) (.num 0) none 0 ("") []
      = .badRequest ("Missing required location data") :=
  locationVerifyRoute_zero_rejected 0 0 0 none 0 ("") [] (Or.inl rfl)

/-- C3 (code evaluated at the failing input): a VMware WebGL renderer with
every other field unremarkable makes the WebGL branch fire (so the claimed
kind would be virtual_machine), yet the analyzer returns possibly_remote,
because the final score-based refinement runs unconditionally and the −40
WebGL deduction leaves the score at 60 < 75. -/
theorem analyzeEnvironment_vmware_possibly_remote :
    condVmHit envVMware = true ∧
    (analyzeEnvironment envVMware).environmentType = .possiblyRemote ∧
    (analyzeEnvironment envVMware).score = 60 ∧
    decide ((analyzeEnvironment envVMware).environmentType = .virtualMachine) = false := by
  have hvm : condVmHit envVMware = true := by decide
  have hld : condLowDepth envVMware = false := by decide
  have hto : condTouchOdd envVMware = false := by decide
  have hra : condRatioOdd envVMware = false := by
    simp only [condRatioOdd, envVMware]
    norm_num
  have hscore : (analyzeEnvironment envVMware).score = 60 := by
    show (100 : ℤ) - _ - _ - _ - _ = 60
    rw [hra, hld, hvm, hto]
    norm_num
  have htype : (analyzeEnvironment envVMware).environmentType = .possiblyRemote := by
    show (if ((100 : ℤ) - _ - _ - _ - _ < 50) then EnvKind.remoteDesktop
      else if ((100 : ℤ) - _ - _ - _ - _ < 75) then EnvKind.possiblyRemote
      else _) = _
    rw [hra, hld, hvm, hto]
    norm_num
  refine ⟨hvm, htype, hscore, ?_⟩
  rw [htype]
  decide

/-- C4 (amended): the fingerprint builder is deterministic in everything
except the freshly generated sessionId and the current-time fallback for the
timestamp: the location, environment, network and summary components of two
calls on the same input coincide, and the text projections of the two
fingerprints are byte-identical (the projection reads neither sessionId nor
timestamp). -/
theorem generateSessionFingerprint_deterministic_components
    (r1 n1 r2 n2 : String) (x : DetectionData) :
    (generateSessionFingerprint r1 n1 x).location
      = (generateSessionFingerprint r2 n2 x).location ∧
    (generateSessionFingerprint r1 n1 x).environment
      = (generateSessionFingerprint r2 n2 x).environment ∧
    (generateSessionFingerprint r1 n1 x).network
      = (generateSessionFingerprint r2 n2 x).network ∧
    (generateSessionFingerprint r1 n1 x).summary
      = (generateSessionFingerprint r2 n2 x).summary ∧
    fingerprintToText (generateSessionFingerprint r1 n1 x)
      = fingerprintToText (generateSessionFingerprint r2 n2 x) :=
  ⟨rfl, rfl, rfl, rfl, rfl⟩

/-- C4 counterexample: two calls on the same input draw different random
session ids, so the full fingerprint records differ. -/
theorem generateSessionFingerprint_sessionId_random :
    decide (generateSessionFingerprint ("aa") ("t0") xEmpty
      = generateSessionFingerprint ("bb") ("t0") xEmpty) = false ∧
    (generateSessionFingerprint ("aa") ("t0") xEmpty).sessionId = "aa" ∧
    (generateSessionFingerprint ("bb") ("t0") xEmpty).sessionId = "bb" := by
  decide

/-- C7 (amended): the overall risk is the tiering of the average of the
effective scores, where the `|| 100` fallback replaces an absent score or a
score of exactly 0 by 100; an absent detection-results object maps to
unknown. -/
theorem calculateOverallRisk_effective_scores (dr : DetectionResults) :
    (calculateOverallRisk (some dr) = .high ↔
      (effScore dr.locationScore + effScore dr.environmentScore) / 2 < 40) ∧
    (calculateOverallRisk (some dr) = .medium ↔
      40 ≤ (effScore dr.locationScore + effScore dr.environmentScore) / 2 ∧
      (effScore dr.locationScore + effScore dr.environmentScore) / 2 < 70) ∧
    (calculateOverallRisk (some dr) = .low ↔
      70 ≤ (effScore dr.locationScore + effScore dr.environmentScore) / 2) ∧
    calculateOverallRisk none = .unknown := by
  have hcomp : calculateOverallRisk (some dr) =
      (if (effScore dr.locationScore + effScore dr.environmentScore) / 2 < 40
        then RiskLevel.high
       else if (effScore dr.locationScore + effScore dr.environmentScore) / 2 < 70
        then RiskLevel.medium
       else RiskLevel.low) := rfl
  rw [hcomp]
  refine ⟨?_, ?_, ?_, rfl⟩ <;> split_ifs with h1 h2 <;>
    simp_all
  all_goals linarith

/-- C7 counterexample: both scores exactly 0 — the claim expects overallRisk
high, but the `|| 100` fallback treats each 0 as 100 and the code returns
low. -/
theorem calculateOverallRisk_zero_scores_low :
    calculateOverallRisk (some drZero) = RiskLevel.low ∧
    decide (calculateOverallRisk (some drZero) = RiskLevel.high) = false := by
  have h : calculateOverallRisk (some drZero) = RiskLevel.low := by
    simp only [calculateOverallRisk, drZero]
    norm_num
  refine ⟨h, ?_⟩
  rw [h]
  decide

/-- C8: the lite tier is HIGH exactly when the tallied risk score reaches
60, MEDIUM exactly on [30, 60), LOW exactly below 30, and the confidence is
min(90, 50 + 10·number of risk factors). -/
theorem evaluateLite_tiers_confidence (fp : SessionFingerprint)
    (ss : List SimilarSession) :
    ((evaluateLite fp ss).riskAssessment = .HIGH ↔
      60 ≤ (evaluateLite fp ss).riskScore) ∧
    ((evaluateLite fp ss).riskAssessment = .MEDIUM ↔
      30 ≤ (evaluateLite fp ss).riskScore ∧ (evaluateLite fp ss).riskScore < 60) ∧
    ((evaluateLite fp ss).riskAssessment = .LOW ↔
      (evaluateLite fp ss).riskScore < 30) ∧
    (evaluateLite fp ss).confidence
      = min 90 (50 + 10 * (evaluateLite fp ss).riskFactors.length) := by
  have h1 : (evaluateLite fp ss).riskAssessment = liteTier (liteRiskScore fp ss) := rfl
  have h2 : (evaluateLite fp ss).riskScore = liteRiskScore fp ss := rfl
  have h3 : (evaluateLite fp ss).confidence
      = min 90 (50 + (liteRiskFactors fp).length * 10) := rfl
  have h4 : (evaluateLite fp ss).riskFactors = liteRiskFactors fp := rfl
  rw [h1, h2, h3, h4]
  refine ⟨?_, ?_, ?_, by omega⟩ <;>
    · unfold liteTier
      split_ifs <;> simp_all <;> omega

/-- C9: the lite risk score is monotone in the six tallied signals — if
every signal triggered by the first input is also triggered by the second,
the second risk score is at least the first. -/
theorem evaluateLite_riskScore_monotone (fp1 fp2 : SessionFingerprint)
    (ss1 ss2 : List SimilarSession)
    (h1 : sigVPN fp1 = true → sigVPN fp2 = true)
    (h2 : sigLowAccuracy fp1 = true → sigLowAccuracy fp2 = true)
    (h3 : sigFastResponse fp1 = true → sigFastResponse fp2 = true)
    (h4 : sigVMGpu fp1 = true → sigVMGpu fp2 = true)
    (h5 : sigLowColorDepth fp1 = true → sigLowColorDepth fp2 = true)
    (h6 : sigHighRiskNeighbors ss1 = true → sigHighRiskNeighbors ss2 = true) :
    (evaluateLite fp1 ss1).riskScore ≤ (evaluateLite fp2 ss2).riskScore := by
  have key : ∀ (a b : Bool) (c : ℕ), (a = true → b = true) →
      (if a then c else 0) ≤ (if b then c else 0) := by
    intro a b c hab
    cases a <;> cases b <;> simp_all
  show liteRiskScore fp1 ss1 ≤ liteRiskScore fp2 ss2
  unfold liteRiskScore
  exact Nat.add_le_add (Nat.add_le_add (Nat.add_le_add (Nat.add_le_add
    (Nat.add_le_add (key _ _ _ h1) (key _ _ _ h2)) (key _ _ _ h3))
    (key _ _ _ h4)) (key _ _ _ h5)) (key _ _ _ h6)

/-- C9 witness: additionally triggering the VPN signal does not decrease the
risk score (here 0 against 30). -/
theorem evaluateLite_riskScore_monotone_witness :
    (evaluateLite fpBase []).riskScore ≤ (evaluateLite fpVpn []).riskScore :=
  evaluateLite_riskScore_monotone fpBase fpVpn [] []
    (by decide) (by decide) (by decide) (by decide) (by decide) (by decide)

end GeoSpoofer
